import Mathlib

/-!
Verification development for the Smart-Campus attendance pipeline.

The definitions below are a shallow embedding of the core classes of
`attendify_pro.py` (with the variants `attendify_pro_v2.py` and
`attendify_final.py` embedded where a claim refers to them):
`BiometricSimulator`, `LivenessDetector`, `AnomalyDetector` and
`AttendanceSystem`.  Out-of-scope backends (the Haar-cascade face
detector, the LBPH matcher, the SHA-256 hash, the camera) are passed in
as function parameters or explicit outcome values, exactly where the
Python code calls into them.  Wall-clock time is a `Nat` of epoch
seconds passed explicitly where the code reads `time.time()` /
`datetime.now()`; the calendar day is `now / 86400`.
-/

namespace SmartCampus

/-- Association-list lookup, mirroring Python `dict` reads
(`d[k]` / `d.get(k)`). -/
def alget {α β : Type} [DecidableEq α] (m : List (α × β)) (k : α) : Option β :=
  match m with
  | [] => none
  | p :: rest => if p.1 = k then some p.2 else alget rest k

/-- Association-list write, mirroring Python `dict` stores (`d[k] = v`):
overwrite in place when the key exists, append otherwise. -/
def alset {α β : Type} [DecidableEq α] (m : List (α × β)) (k : α) (v : β) :
    List (α × β) :=
  match m with
  | [] => [(k, v)]
  | p :: rest => if p.1 = k then (k, v) :: rest else p :: alset rest k v

/-- Python `defaultdict(list)` read: a missing key reads as `[]`. -/
def algetD {α β : Type} [DecidableEq α] (m : List (α × List β)) (k : α) :
    List β :=
  (alget m k).getD []

/-- The four multi-factor verification flags passed to
`AttendanceSystem.mark_attendance` as the `factors_verified` dict. -/
structure Factors where
  face : Bool
  liveness : Bool
  fingerprint : Bool
  qr : Bool
deriving DecidableEq, Repr

/-- The verification score computed inside `mark_attendance`
(`attendify_pro.py`, the `score = sum([...])` expression). -/
def verificationScore (f : Factors) : Nat :=
  (if f.face then 30 else 0) + (if f.liveness then 25 else 0) +
    (if f.fingerprint then 25 else 0) + (if f.qr then 20 else 0)

/-- Pointwise order on factor flags: `g` has every flag `f` has. -/
def flagsLe (f g : Factors) : Prop :=
  f.face ≤ g.face ∧ f.liveness ≤ g.liveness ∧
    f.fingerprint ≤ g.fingerprint ∧ f.qr ≤ g.qr

instance (f g : Factors) : Decidable (flagsLe f g) := by
  unfold flagsLe; infer_instance

/-- One entry of `AnomalyDetector.anomalies`
(`log_anomaly` appends these). -/
structure AnomalyEvent where
  timestamp : Nat
  student_id : String
  kind : String
  description : String
deriving DecidableEq, Repr

/-- The mutable state of `AnomalyDetector` (`attendify_pro.py`):
`attempts` maps a student id to its list of `(time, success)` pairs,
`locations` to its list of `(time, location)` pairs. -/
structure AnomalyState where
  attempts : List (String × List (Nat × Bool))
  locations : List (String × List (Nat × String))
  anomalies : List AnomalyEvent
deriving DecidableEq, Repr

/-- Empty `AnomalyDetector` state (fresh `defaultdict`s). -/
def AnomalyState.empty : AnomalyState := ⟨[], [], []⟩

/-- Embeds `AnomalyDetector.log_anomaly` (`attendify_pro.py`). -/
def log_anomaly (a : AnomalyState) (now : Nat) (sid kind desc : String) :
    AnomalyState :=
  { a with anomalies := a.anomalies ++ [⟨now, sid, kind, desc⟩] }

/-- The pruning step of `check_rate_limit`: keep only the attempts with
`now - t < self.rate_limit_window` (300 seconds). -/
def prunedAttempts (a : AnomalyState) (now : Nat) (sid : String) :
    List (Nat × Bool) :=
  (algetD a.attempts sid).filter (fun p => decide (now - p.1 < 300))

/-- Embeds `AnomalyDetector.check_rate_limit` (`attendify_pro.py`): prune the
student's attempts to those with `now - t < 300`, store the pruned
list back, then deny (logging a RATE_LIMIT anomaly) iff at least 5
attempts remain. -/
def check_rate_limit (a : AnomalyState) (now : Nat) (sid : String) :
    AnomalyState × Bool × String :=
  let kept := prunedAttempts a now sid
  let a' : AnomalyState := { a with attempts := alset a.attempts sid kept }
  if 5 ≤ kept.length then
    (log_anomaly a' now sid "RATE_LIMIT" "Too many attempts in 5 minutes",
      false, "Too many attempts. Please wait 5 minutes.")
  else
    (a', true, "")

/-- Embeds `AnomalyDetector.record_attempt` (`attendify_pro.py`): append the
current `(time, success)` pair and the `(time, location)` pair, then
log a LOCATION_ANOMALY when more than one distinct location appears in
the last 600 seconds. -/
def record_attempt (a : AnomalyState) (now : Nat) (sid : String)
    (success : Bool) (location : String) : AnomalyState :=
  let a1 : AnomalyState :=
    { a with attempts := alset a.attempts sid (algetD a.attempts sid ++ [(now, success)]) }
  let a2 : AnomalyState :=
    { a1 with locations := alset a1.locations sid (algetD a1.locations sid ++ [(now, location)]) }
  let recentLocs := (algetD a2.locations sid).filter (fun p => decide (now - p.1 < 600))
  if 1 < (recentLocs.map (·.2)).dedup.length then
    log_anomaly a2 now sid "LOCATION_ANOMALY" "Multiple locations in 10 minutes"
  else
    a2

/-- One enrolled student record (value of `AttendanceSystem.students`). -/
structure Student where
  name : String
  department : String
  fingerprint : String
  enrolled_at : Nat
  face_label : Nat
deriving DecidableEq, Repr

/-- One entry of `AttendanceSystem.attendance_today`. -/
structure TodayRec where
  name : String
  time : Nat
  factors : Factors
  score : Nat
  verified : Bool
deriving DecidableEq, Repr

/-- One committed attendance line, as appended both to
`attendance_history[date]` and to the per-day CSV log. -/
structure HistEntry where
  day : Nat
  student_id : String
  time : Nat
  score : Nat
deriving DecidableEq, Repr

/-- A training operation performed on the LBPH matcher backend
(`recognizer.train` / `recognizer.update`); samples are opaque
preprocessed face images, modelled as `Nat`. -/
inductive MatcherOp where
  | train (samples : List Nat) (labels : List Nat)
  | update (samples : List Nat) (labels : List Nat)
deriving DecidableEq, Repr

/-- The mutable state of `AttendanceSystem` (`attendify_pro.py`).
`lbph` is the `LBPH_AVAILABLE` / `self.recognizer is not None` flag;
`matcher_ops` is the trace of train/update calls made on the matcher
backend (the matcher itself is out of scope). -/
structure SystemState where
  lbph : Bool
  label_map : List (Nat × String)
  students : List (String × Student)
  attendance_today : List (String × TodayRec)
  attendance_history : List HistEntry
  log : List HistEntry
  anomaly : AnomalyState
  matcher_ops : List MatcherOp
deriving DecidableEq, Repr

/-- A fresh `AttendanceSystem` with the LBPH backend available and no
persisted data. -/
def initState : SystemState :=
  ⟨true, [], [], [], [], [], AnomalyState.empty, []⟩

/-- Embeds `AttendanceSystem.mark_attendance` (`attendify_pro.py`): rate-limit
check, already-marked check, mandatory-face check, then commit the
scored record to today's map, the history, the attempt log and the
per-day CSV log. -/
def mark_attendance (st : SystemState) (now : Nat) (sid : String)
    (factors : Factors) : SystemState × Bool × String :=
  let c := check_rate_limit st.anomaly now sid
  let st1 : SystemState := { st with anomaly := c.1 }
  if c.2.1 = false then
    (st1, false, c.2.2)
  else if (alget st1.attendance_today sid).isSome then
    (st1, false, "Already marked today")
  else if factors.face = false then
    ({ st1 with anomaly := record_attempt st1.anomaly now sid false "local" },
      false, "Face verification required")
  else
    let score := verificationScore factors
    let name := ((alget st1.students sid).map Student.name).getD "Unknown"
    let rec2 : TodayRec :=
      ⟨name, now, factors, score, decide (55 ≤ score)⟩
    let day := now / 86400
    let entry : HistEntry := ⟨day, sid, now, score⟩
    let st2 : SystemState :=
      { st1 with
          attendance_today := st1.attendance_today ++ [(sid, rec2)],
          attendance_history := st1.attendance_history ++ [entry],
          anomaly := record_attempt st1.anomaly now sid true "local",
          log := st1.log ++ [entry] }
    (st2, true, "Verified with " ++ toString score ++ "% confidence")

/-- The today-map record that a successful `mark_attendance` commits. -/
def markTodayRec (st : SystemState) (sid : String) (now : Nat)
    (f : Factors) : TodayRec :=
  ⟨((alget st.students sid).map Student.name).getD "Unknown", now, f,
    verificationScore f, decide (55 ≤ verificationScore f)⟩

/-- The history / per-day-log line that a successful `mark_attendance`
commits. -/
def markHistEntry (sid : String) (now : Nat) (f : Factors) : HistEntry :=
  ⟨now / 86400, sid, now, verificationScore f⟩

/-- Embeds `AttendanceSystem.recognize_face` (`attendify_pro.py`).  The LBPH
backend's `predict` call is passed in as its outcome: `Except.error`
models the `except:` path, `Except.ok (label, conf)` a returned
prediction with distance `conf` (a rational, as LBPH distances are
floats).  Accepts precisely when the label is enrolled and the
distance is strictly below 85, reporting `int(max(0, 100 - conf))`. -/
def recognize_face (st : SystemState) (predict : Except Unit (Nat × ℚ)) :
    Option String × String × Nat :=
  if st.lbph = false ∨ st.label_map = [] then
    (none, "Unknown", 0)
  else
    match predict with
    | .error _ => (none, "Unknown", 0)
    | .ok (label, conf) =>
      match alget st.label_map label with
      | some sid =>
        if conf < 85 then
          (some sid, ((alget st.students sid).map Student.name).getD "Unknown",
            Int.toNat ⌊max 0 (100 - conf)⌋)
        else (none, "Unknown", 0)
      | none => (none, "Unknown", 0)

/-- Embeds `BiometricSimulator.generate_fingerprint` (`attendify_pro.py`),
with the SHA-256 hexdigest backend passed as `hashS`:
`sha256(student_id + "SECRET_SALT").hexdigest()[:32]`. -/
def generate_fingerprint (hashS : String → String) (sid : String) : String :=
  ((hashS (sid ++ "SECRET_SALT")).toList.take 32).asString

/-- Fresh-label allocation in `enroll_student`:
`max(self.label_map.keys(), default=-1) + 1`. -/
def nextLabel (m : List (Nat × String)) : Nat :=
  match m.map (·.1) with
  | [] => 0
  | k :: ks => ks.foldl Nat.max k + 1

/-- The sample-collection loop of `enroll_student`: for each frame run
the detector backend, and when at least one box is found preprocess
the first box into a training sample (frames, boxes and samples are
opaque backend values). -/
def collectSamples {Frame Rect : Type} (detect : Frame → List Rect)
    (preprocess : Frame → Rect → Nat) (frames : List Frame) : List Nat :=
  frames.filterMap (fun img =>
    match detect img with
    | [] => none
    | r :: _ => some (preprocess img r))

/-- Embeds `AttendanceSystem.enroll_student` (`attendify_pro.py`): allocate a
fresh label, collect samples, fail when fewer than 3, otherwise train
(first enrollment) or update the matcher, store the label mapping and
the student record, and return success.  The matcher backend is
modelled as always succeeding (its `except` path re-raises backend
errors that are out of scope). -/
def enroll_student {Frame Rect : Type} (detect : Frame → List Rect)
    (preprocess : Frame → Rect → Nat) (hashS : String → String)
    (st : SystemState) (now : Nat) (sid name department : String)
    (frames : List Frame) : SystemState × Bool × String :=
  if st.lbph = false then
    (st, false, "Face recognition not available")
  else
    let label := nextLabel st.label_map
    let faces := collectSamples detect preprocess frames
    if faces.length < 3 then
      (st, false, "Only " ++ toString faces.length ++ " valid faces detected")
    else
      let labels := faces.map (fun _ => label)
      let op := if st.label_map = [] then MatcherOp.train faces labels
                else MatcherOp.update faces labels
      let fp := generate_fingerprint hashS sid
      ({ st with
          label_map := alset st.label_map label sid,
          students := alset st.students sid ⟨name, department, fp, now, label⟩,
          matcher_ops := st.matcher_ops ++ [op] },
        true, "Enrolled " ++ name ++ " successfully!")

/-- Embeds `AttendanceSystem.enroll_student` of `attendify_pro_v2.py` (the
`AttendanceDB.enroll` of `attendify_final.py` is the same logic): like
the `attendify_pro.py` version but it first rejects a student id that
is already enrolled, and its failure messages differ slightly. -/
def enroll_student_v2 {Frame Rect : Type} (detect : Frame → List Rect)
    (preprocess : Frame → Rect → Nat) (hashS : String → String)
    (st : SystemState) (now : Nat) (sid name department : String)
    (frames : List Frame) : SystemState × Bool × String :=
  if st.lbph = false then
    (st, false, "Recognition not available")
  else if (alget st.students sid).isSome then
    (st, false, "Student ID already exists")
  else
    let label := nextLabel st.label_map
    let faces := collectSamples detect preprocess frames
    if faces.length < 3 then
      (st, false, "Only " ++ toString faces.length ++ " valid faces")
    else
      let labels := faces.map (fun _ => label)
      let op := if st.label_map = [] then MatcherOp.train faces labels
                else MatcherOp.update faces labels
      let fp := generate_fingerprint hashS sid
      ({ st with
          label_map := alset st.label_map label sid,
          students := alset st.students sid ⟨name, department, fp, now, label⟩,
          matcher_ops := st.matcher_ops ++ [op] },
        true, "Enrolled " ++ name ++ " successfully!")

/-- The mutable counters of `LivenessDetector`
(`attendify_pro_v2.py`; `attendify_final.py` names them `blinks`,
`last_eyes`, `no_eye_frames`, `cooldown`). -/
structure LivenessState where
  blink_count : Nat
  last_eye_count : Nat
  no_eye_frames : Nat
  blink_cooldown : Nat
deriving DecidableEq, Repr

/-- Initial `LivenessDetector.__init__` counters. -/
def LivenessState.start : LivenessState := ⟨0, 2, 0, 0⟩

/-- Embeds `LivenessDetector.detect_blink` (`attendify_pro_v2.py`;
`LivenessDetector.check` in `attendify_final.py` is identical logic).
The cascade backends are summarised by the observation: `none` means
no face was detected in the frame, `some n` that a face was found and
`n` eye regions were detected inside it.  Returns the new state, the
`blink_detected` flag and the `is_verified` flag. -/
def detect_blink (st : LivenessState) (obs : Option Nat) :
    LivenessState × Bool × Bool :=
  match obs with
  | none => (st, false, decide (2 ≤ st.blink_count))
  | some n =>
    let r : LivenessState × Bool :=
      if 0 < st.blink_cooldown then
        ({ st with blink_cooldown := st.blink_cooldown - 1 }, false)
      else if n < 2 ∧ 2 ≤ st.last_eye_count then
        ({ st with no_eye_frames := st.no_eye_frames + 1 }, false)
      else if 2 ≤ n ∧ 2 ≤ st.no_eye_frames then
        ({ st with blink_count := st.blink_count + 1
                   blink_cooldown := 10
                   no_eye_frames := 0 }, true)
      else if 2 ≤ n then
        ({ st with no_eye_frames := 0 }, false)
      else
        (st, false)
    ({ r.1 with last_eye_count := n }, r.2, decide (2 ≤ r.1.blink_count))

/-- Feed a sequence of per-frame observations through the liveness
detector, keeping only the state. -/
def runLiveness (st : LivenessState) (obss : List (Option Nat)) :
    LivenessState :=
  obss.foldl (fun s o => (detect_blink s o).1) st

/-- Strings handled character-by-character (Python `str` for the QR
payload logic, where `split(":")` matters). -/
abbrev Str : Type := List Char

/-- Python `s.split(sep)` for a single-character separator: split at
every occurrence, keeping empty pieces. -/
def splitOnChar (c : Char) (s : Str) : List Str :=
  match s with
  | [] => [[]]
  | x :: xs =>
    match splitOnChar c xs with
    | [] => [[x]]
    | y :: ys => if x = c then [] :: y :: ys else (x :: y) :: ys

/-- The QR token of `BiometricSimulator.generate_daily_qr`
(`attendify_pro.py`):
`sha256(student_id + today + "QR_SECRET").hexdigest()[:16]`, with the
SHA-256 hexdigest backend passed as `hashC` and the current calendar
date string as `today`. -/
def qrToken (hashC : Str → Str) (sid today : Str) : Str :=
  (hashC (sid ++ today ++ "QR_SECRET".toList)).take 16

/-- The payload that `generate_daily_qr` encodes into the QR image:
`ATTENDIFY:<student_id>:<token>`. -/
def qrPayload (hashC : Str → Str) (sid today : Str) : Str :=
  "ATTENDIFY".toList ++ ':' :: sid ++ ':' :: qrToken hashC sid today

/-- Embeds `BiometricSimulator.verify_qr` (`attendify_pro.py`): split the
payload on `:`; reject unless exactly 3 parts with namespace
`ATTENDIFY` and matching student id; recompute today's token and
compare exactly. -/
def verify_qr (hashC : Str → Str) (today : Str) (qr_data : Str)
    (sid : Str) : Bool :=
  match splitOnChar ':' qr_data with
  | [ns, qsid, qtok] =>
    if ns ≠ "ATTENDIFY".toList then false
    else if qsid ≠ sid then false
    else decide (qtok = qrToken hashC sid today)
  | _ => false

/-! ## Helper lemmas -/

lemma alget_alset_self {α β : Type} [DecidableEq α] (m : List (α × β))
    (k : α) (v : β) : alget (alset m k v) k = some v := by
  induction m with
  | nil => simp [alget, alset]
  | cons p rest ih =>
    by_cases h : p.1 = k
    · simp [alget, alset, h]
    · simp [alget, alset, h, ih]

lemma alget_ne_nil {α β : Type} [DecidableEq α] {m : List (α × β)} {k : α}
    {v : β} (h : alget m k = some v) : m ≠ [] := by
  intro hnil
  rw [hnil] at h
  simp [alget] at h

lemma mark_eq_of_denied (st : SystemState) (now : Nat) (sid : String)
    (f : Factors) (h : (check_rate_limit st.anomaly now sid).2.1 = false) :
    mark_attendance st now sid f =
      ({ st with anomaly := (check_rate_limit st.anomaly now sid).1 }, false,
        (check_rate_limit st.anomaly now sid).2.2) := by
  unfold mark_attendance
  simp [h]

lemma mark_eq_of_already (st : SystemState) (now : Nat) (sid : String)
    (f : Factors) (h1 : (check_rate_limit st.anomaly now sid).2.1 = true)
    (h2 : (alget st.attendance_today sid).isSome = true) :
    mark_attendance st now sid f =
      ({ st with anomaly := (check_rate_limit st.anomaly now sid).1 }, false,
        "Already marked today") := by
  unfold mark_attendance
  simp [h1, h2]

lemma mark_eq_of_noface (st : SystemState) (now : Nat) (sid : String)
    (f : Factors) (h1 : (check_rate_limit st.anomaly now sid).2.1 = true)
    (h2 : alget st.attendance_today sid = none) (h3 : f.face = false) :
    mark_attendance st now sid f =
      ({ st with anomaly :=
          record_attempt (check_rate_limit st.anomaly now sid).1 now sid false "local" },
        false, "Face verification required") := by
  unfold mark_attendance
  simp [h1, h2, h3]

lemma mark_eq_of_success (st : SystemState) (now : Nat) (sid : String)
    (f : Factors) (h1 : (check_rate_limit st.anomaly now sid).2.1 = true)
    (h2 : alget st.attendance_today sid = none) (h3 : f.face = true) :
    mark_attendance st now sid f =
      ({ st with
          attendance_today :=
            st.attendance_today ++ [(sid, markTodayRec st sid now f)],
          attendance_history :=
            st.attendance_history ++ [markHistEntry sid now f],
          anomaly :=
            record_attempt (check_rate_limit st.anomaly now sid).1 now sid true "local",
          log := st.log ++ [markHistEntry sid now f] },
        true, "Verified with " ++ toString (verificationScore f) ++ "% confidence") := by
  unfold mark_attendance
  simp [h1, h2, h3, markTodayRec, markHistEntry]

lemma mark_success_conditions (st : SystemState) (now : Nat) (sid : String)
    (f : Factors) (h : (mark_attendance st now sid f).2.1 = true) :
    (check_rate_limit st.anomaly now sid).2.1 = true ∧
      alget st.attendance_today sid = none ∧ f.face = true := by
  by_cases h1 : (check_rate_limit st.anomaly now sid).2.1 = true
  · by_cases h2 : (alget st.attendance_today sid).isSome = true
    · rw [mark_eq_of_already st now sid f h1 h2] at h
      simp at h
    · have h2' : alget st.attendance_today sid = none :=
        Option.not_isSome_iff_eq_none.mp (by simpa using h2)
      by_cases h3 : f.face = true
      · exact ⟨h1, h2', h3⟩
      · rw [mark_eq_of_noface st now sid f h1 h2'
          (Bool.not_eq_true _ ▸ h3)] at h
        simp at h
  · rw [mark_eq_of_denied st now sid f (Bool.not_eq_true _ ▸ h1)] at h
    simp at h

/-! ## Concrete scenario states -/

/-- A mark call with only the mandatory face factor verified. -/
def faceOnly : Factors := ⟨true, false, false, false⟩

/-- A mark call with no factor verified at all. -/
def noFactors : Factors := ⟨false, false, false, false⟩

/-- Four face-less (hence failing) mark attempts at seconds 0–3 followed
by a successful face-only mark at second 4, all for student `S1` on one
calendar day, starting from a fresh system.  Each of the five calls
records an attempt, filling the 300-second rate window. -/
def burstState : SystemState :=
  [(0, noFactors), (1, noFactors), (2, noFactors), (3, noFactors),
    (4, faceOnly)].foldl
    (fun s c => (mark_attendance s c.1 "S1" c.2).1) initState

/-- A fresh system in which `S1` was marked once (successfully) at
second 0. -/
def oneMarkedState : SystemState :=
  (mark_attendance initState 0 "S1" faceOnly).1

/-! ## C1 -/

/-- C1 counterexample: in `burstState` student `S1` is already in
today's attendance map, yet the second mark call of the day does not
fail with `AlreadyMarked`: the rate limiter denies it first, so it
fails with the rate-limit message.  The claim's "any second mark call
for the same identity on the same day fails with AlreadyMarked" is
therefore false as stated. -/
theorem mark_second_call_not_always_already_marked :
    (alget burstState.attendance_today "S1").isSome = true ∧
    (mark_attendance burstState 5 "S1" faceOnly).2 =
      (false, "Too many attempts. Please wait 5 minutes.") := by
  decide

/-- C1 (amended): a first successful `mark_attendance` appends exactly
one record to today's map, the attendance history and the per-day log;
any mark call for a student already in today's map fails and leaves all
three unchanged, and it fails with the `Already marked today` message
whenever the rate limiter allows the call (otherwise with the
rate-limit message). -/
theorem mark_at_most_once_per_day :
    ∀ (st : SystemState) (now : Nat) (sid : String) (f : Factors),
      ((mark_attendance st now sid f).2.1 = true →
        alget st.attendance_today sid = none ∧
        (mark_attendance st now sid f).1.attendance_today =
          st.attendance_today ++ [(sid, markTodayRec st sid now f)] ∧
        (mark_attendance st now sid f).1.attendance_history =
          st.attendance_history ++ [markHistEntry sid now f] ∧
        (mark_attendance st now sid f).1.log =
          st.log ++ [markHistEntry sid now f]) ∧
      ((alget st.attendance_today sid).isSome = true →
        (mark_attendance st now sid f).2.1 = false ∧
        (mark_attendance st now sid f).1.attendance_today =
          st.attendance_today ∧
        (mark_attendance st now sid f).1.attendance_history =
          st.attendance_history ∧
        (mark_attendance st now sid f).1.log = st.log ∧
        ((check_rate_limit st.anomaly now sid).2.1 = true →
          (mark_attendance st now sid f).2.2 = "Already marked today")) := by
  intro st now sid f
  constructor
  · intro h
    obtain ⟨h1, h2, h3⟩ := mark_success_conditions st now sid f h
    rw [mark_eq_of_success st now sid f h1 h2 h3]
    exact ⟨h2, rfl, rfl, rfl⟩
  · intro h2
    by_cases h1 : (check_rate_limit st.anomaly now sid).2.1 = true
    · rw [mark_eq_of_already st now sid f h1 h2]
      exact ⟨rfl, rfl, rfl, rfl, fun _ => rfl⟩
    · rw [mark_eq_of_denied st now sid f (Bool.not_eq_true _ ▸ h1)]
      refine ⟨rfl, rfl, rfl, rfl, fun hc => absurd hc h1⟩

/-- Witness for C1: on a fresh system the first mark of `S1` commits
exactly one record, and the second call one minute later fails with the
`Already marked today` message and changes none of the three
attendance structures. -/
theorem mark_at_most_once_per_day_witness :
    ((mark_attendance initState 0 "S1" faceOnly).1.attendance_today =
      initState.attendance_today ++
        [("S1", markTodayRec initState "S1" 0 faceOnly)]) ∧
    (mark_attendance oneMarkedState 60 "S1" faceOnly).2.1 = false ∧
    (mark_attendance oneMarkedState 60 "S1" faceOnly).2.2 =
      "Already marked today" ∧
    (mark_attendance oneMarkedState 60 "S1" faceOnly).1.attendance_today =
      oneMarkedState.attendance_today := by
  have hfirst :=
    (mark_at_most_once_per_day initState 0 "S1" faceOnly).1 (by decide)
  have hsecond :=
    (mark_at_most_once_per_day oneMarkedState 60 "S1" faceOnly).2 (by decide)
  exact ⟨hfirst.2.1, hsecond.1, hsecond.2.2.2.2 (by decide), hsecond.2.1⟩

/-! ## C2 -/

/-- C2: the verification score is the weighted sum
`30*face + 25*liveness + 25*fingerprint + 20*qr`; it is monotone when
flags flip from false to true, bounded by 100 (and by 0, being a
`Nat`), equals 100 exactly when all four flags hold, and a successful
`mark_attendance` commits exactly this score. -/
theorem score_weighted_sum_properties :
    (∀ f : Factors,
      verificationScore f =
        30 * f.face.toNat + 25 * f.liveness.toNat +
          25 * f.fingerprint.toNat + 20 * f.qr.toNat) ∧
    (∀ f g : Factors, flagsLe f g →
      verificationScore f ≤ verificationScore g) ∧
    (∀ f : Factors, verificationScore f ≤ 100) ∧
    (∀ f : Factors,
      verificationScore f = 100 ↔ f = ⟨true, true, true, true⟩) ∧
    (∀ (st : SystemState) (now : Nat) (sid : String) (f : Factors),
      (mark_attendance st now sid f).2.1 = true →
      (mark_attendance st now sid f).1.attendance_today =
        st.attendance_today ++ [(sid, markTodayRec st sid now f)] ∧
      (markTodayRec st sid now f).score = verificationScore f) := by
  refine ⟨?_, ?_, ?_, ?_, ?_⟩
  · rintro ⟨a, b, c, d⟩
    revert a b c d
    decide
  · rintro ⟨a, b, c, d⟩ ⟨a', b', c', d'⟩
    revert a b c d a' b' c' d'
    decide
  · rintro ⟨a, b, c, d⟩
    revert a b c d
    decide
  · rintro ⟨a, b, c, d⟩
    revert a b c d
    decide
  · intro st now sid f h
    obtain ⟨h1, h2, h3⟩ := mark_success_conditions st now sid f h
    rw [mark_eq_of_success st now sid f h1 h2 h3]
    exact ⟨rfl, rfl⟩

/-- Witness for C2: the monotonicity conjunct at a concrete flag flip
and the commit conjunct at a concrete successful all-factors mark. -/
theorem score_weighted_sum_properties_witness :
    verificationScore noFactors ≤ verificationScore faceOnly ∧
    (mark_attendance initState 0 "S1" ⟨true, true, true, true⟩).1.attendance_today =
      initState.attendance_today ++
        [("S1", markTodayRec initState "S1" 0 ⟨true, true, true, true⟩)] ∧
    (markTodayRec initState "S1" 0 ⟨true, true, true, true⟩).score =
      verificationScore ⟨true, true, true, true⟩ := by
  have h1 :=
    score_weighted_sum_properties.2.1 noFactors faceOnly (by decide)
  have h2 :=
    score_weighted_sum_properties.2.2.2.2 initState 0 "S1"
      ⟨true, true, true, true⟩ (by decide)
  exact ⟨h1, h2.1, h2.2⟩

/-! ## C5 -/

/-- C5: a mark call that passes the rate limit and is not yet marked
today fails with `Face verification required` when the face flag is
false, committing nothing, while a face-only mark on a fresh system
succeeds with score 30. -/
theorem mark_face_required :
    (∀ (st : SystemState) (now : Nat) (sid : String) (f : Factors),
      (check_rate_limit st.anomaly now sid).2.1 = true →
      alget st.attendance_today sid = none →
      f.face = false →
      (mark_attendance st now sid f).2 =
        (false, "Face verification required") ∧
      (mark_attendance st now sid f).1.attendance_today =
        st.attendance_today ∧
      (mark_attendance st now sid f).1.attendance_history =
        st.attendance_history ∧
      (mark_attendance st now sid f).1.log = st.log) ∧
    (mark_attendance initState 0 "S1" faceOnly).2 =
      (true, "Verified with 30% confidence") ∧
    (alget (mark_attendance initState 0 "S1" faceOnly).1.attendance_today
        "S1").map TodayRec.score = some 30 := by
  refine ⟨?_, by decide, by decide⟩
  intro st now sid f h1 h2 h3
  rw [mark_eq_of_noface st now sid f h1 h2 h3]
  exact ⟨rfl, rfl, rfl, rfl⟩

/-- Witness for C5: `mark("S2", no factors)` on a fresh system fails
with the face-required message and creates no record. -/
theorem mark_face_required_witness :
    (mark_attendance initState 7 "S2" noFactors).2 =
      (false, "Face verification required") ∧
    (mark_attendance initState 7 "S2" noFactors).1.attendance_today =
      initState.attendance_today := by
  have h := mark_face_required.1 initState 7 "S2" noFactors
    (by decide) (by decide) (by decide)
  exact ⟨h.1, h.2.1⟩

/-! ## C10 -/

/-- Every committed score in today's map, the history and the per-day
log lies between 30 and 100. -/
def ledgerScoresOk (st : SystemState) : Prop :=
  (∀ p ∈ st.attendance_today, 30 ≤ p.2.score ∧ p.2.score ≤ 100) ∧
  (∀ e ∈ st.attendance_history, 30 ≤ e.score ∧ e.score ≤ 100) ∧
  (∀ e ∈ st.log, 30 ≤ e.score ∧ e.score ≤ 100)

instance (st : SystemState) : Decidable (ledgerScoresOk st) := by
  unfold ledgerScoresOk; infer_instance

lemma verificationScore_bounds (f : Factors) (h : f.face = true) :
    30 ≤ verificationScore f ∧ verificationScore f ≤ 100 := by
  obtain ⟨a, b, c, d⟩ := f
  cases a
  · simp at h
  · revert b c d; decide

/-- C10: `mark_attendance` preserves the 30-to-100 score invariant of
all three attendance structures, and only ever appends to them (it
never lowers or mutates a committed entry). -/
theorem committed_scores_bounded :
    ∀ (st : SystemState) (now : Nat) (sid : String) (f : Factors),
      ledgerScoresOk st →
      ledgerScoresOk (mark_attendance st now sid f).1 ∧
      (∃ t, (mark_attendance st now sid f).1.attendance_today =
        st.attendance_today ++ t) ∧
      (∃ t, (mark_attendance st now sid f).1.attendance_history =
        st.attendance_history ++ t) ∧
      (∃ t, (mark_attendance st now sid f).1.log = st.log ++ t) := by
  intro st now sid f hok
  by_cases hs : (mark_attendance st now sid f).2.1 = true
  · obtain ⟨h1, h2, h3⟩ := mark_success_conditions st now sid f hs
    rw [mark_eq_of_success st now sid f h1 h2 h3]
    obtain ⟨hA, hB, hC⟩ := hok
    have hb := verificationScore_bounds f h3
    refine ⟨⟨?_, ?_, ?_⟩, ⟨_, rfl⟩, ⟨_, rfl⟩, ⟨_, rfl⟩⟩
    · intro p hp
      rcases List.mem_append.mp hp with hp | hp
      · exact hA p hp
      · rw [List.mem_singleton.mp hp]; exact hb
    · intro e he
      rcases List.mem_append.mp he with he | he
      · exact hB e he
      · rw [List.mem_singleton.mp he]; exact hb
    · intro e he
      rcases List.mem_append.mp he with he | he
      · exact hC e he
      · rw [List.mem_singleton.mp he]; exact hb
  · by_cases h1 : (check_rate_limit st.anomaly now sid).2.1 = true
    · by_cases h2 : (alget st.attendance_today sid).isSome = true
      · rw [mark_eq_of_already st now sid f h1 h2]
        exact ⟨hok, ⟨[], by simp⟩, ⟨[], by simp⟩, ⟨[], by simp⟩⟩
      · have h2' : alget st.attendance_today sid = none :=
          Option.not_isSome_iff_eq_none.mp (by simpa using h2)
        have h3 : f.face = false := by
          cases hface : f.face
          · rfl
          · exact absurd
              (show (mark_attendance st now sid f).2.1 = true by
                rw [mark_eq_of_success st now sid f h1 h2' hface]) hs
        rw [mark_eq_of_noface st now sid f h1 h2' h3]
        exact ⟨hok, ⟨[], by simp⟩, ⟨[], by simp⟩, ⟨[], by simp⟩⟩
    · rw [mark_eq_of_denied st now sid f (Bool.not_eq_true _ ▸ h1)]
      exact ⟨hok, ⟨[], by simp⟩, ⟨[], by simp⟩, ⟨[], by simp⟩⟩

/-- Witness for C10: the invariant holds after a face-only mark on a
fresh (empty, hence trivially invariant) system. -/
theorem committed_scores_bounded_witness :
    ledgerScoresOk (mark_attendance initState 0 "S1" faceOnly).1 :=
  (committed_scores_bounded initState 0 "S1" faceOnly (by decide)).1

/-! ## C8 -/

lemma record_attempt_attempts (a : AnomalyState) (now : Nat) (sid : String)
    (success : Bool) (loc : String) :
    (record_attempt a now sid success loc).attempts =
      alset a.attempts sid (algetD a.attempts sid ++ [(now, success)]) := by
  simp only [record_attempt, log_anomaly]
  split <;> rfl

/-- Five attempts for `S1` recorded at seconds 0–4 on a fresh anomaly
detector. -/
def fiveAttemptsState : AnomalyState :=
  [0, 1, 2, 3, 4].foldl
    (fun a t => record_attempt a t "S1" false "local") AnomalyState.empty

/-- C8: `check_rate_limit` stores back the pruned window (timestamps
with `now - t < 300`), allows exactly when fewer than 5 attempts
remain, and on denial logs a RATE_LIMIT anomaly and returns the
rate-limit reason; `record_attempt` appends the current timestamp
regardless of the success flag; concretely, 5 attempts at seconds 0–4
deny a call at second 10 and allow one at second 400. -/
theorem rate_limit_window_cap :
    (∀ (a : AnomalyState) (now : Nat) (sid : String),
      (check_rate_limit a now sid).2.1 =
        decide ((prunedAttempts a now sid).length < 5) ∧
      alget (check_rate_limit a now sid).1.attempts sid =
        some (prunedAttempts a now sid) ∧
      prunedAttempts a now sid =
        (algetD a.attempts sid).filter (fun p => decide (now - p.1 < 300)) ∧
      (5 ≤ (prunedAttempts a now sid).length →
        (check_rate_limit a now sid).1.anomalies =
          a.anomalies ++
            [⟨now, sid, "RATE_LIMIT", "Too many attempts in 5 minutes"⟩] ∧
        (check_rate_limit a now sid).2.2 =
          "Too many attempts. Please wait 5 minutes.")) ∧
    (∀ (a : AnomalyState) (now : Nat) (sid : String) (success : Bool)
        (loc : String),
      alget (record_attempt a now sid success loc).attempts sid =
        some (algetD a.attempts sid ++ [(now, success)])) ∧
    (check_rate_limit fiveAttemptsState 10 "S1").2.1 = false ∧
    (check_rate_limit fiveAttemptsState 400 "S1").2.1 = true := by
  refine ⟨?_, ?_, by decide, by decide⟩
  · intro a now sid
    by_cases h : 5 ≤ (prunedAttempts a now sid).length
    · have heq : check_rate_limit a now sid =
          (log_anomaly
            { a with attempts := alset a.attempts sid (prunedAttempts a now sid) }
            now sid "RATE_LIMIT" "Too many attempts in 5 minutes",
            false, "Too many attempts. Please wait 5 minutes.") := by
        unfold check_rate_limit
        simp [h]
      rw [heq]
      refine ⟨(decide_eq_false (Nat.not_lt.mpr h)).symm, ?_, rfl,
        fun _ => ⟨?_, rfl⟩⟩
      · simp [log_anomaly, alget_alset_self]
      · simp [log_anomaly]
    · have heq : check_rate_limit a now sid =
          ({ a with attempts := alset a.attempts sid (prunedAttempts a now sid) },
            true, "") := by
        unfold check_rate_limit
        simp [h]
      rw [heq]
      exact ⟨(decide_eq_true (Nat.not_le.mp h)).symm,
        by simp [alget_alset_self], rfl, fun hc => absurd hc h⟩
  · intro a now sid success loc
    rw [record_attempt_attempts]
    exact alget_alset_self _ _ _

/-- Witness for C8: the denial branch at the concrete five-attempt
state logs the RATE_LIMIT anomaly and returns the rate-limit reason. -/
theorem rate_limit_window_cap_witness :
    (check_rate_limit fiveAttemptsState 10 "S1").1.anomalies =
      fiveAttemptsState.anomalies ++
        [⟨10, "S1", "RATE_LIMIT", "Too many attempts in 5 minutes"⟩] ∧
    (check_rate_limit fiveAttemptsState 10 "S1").2.2 =
      "Too many attempts. Please wait 5 minutes." :=
  (rate_limit_window_cap.1 fiveAttemptsState 10 "S1").2.2.2 (by decide)

/-! ## C3 -/

/-- A system with `S1` enrolled under label 0, for exercising
`recognize_face`. -/
def recogState : SystemState :=
  { initState with
      label_map := [(0, "S1")],
      students := [("S1", ⟨"Alice", "CS", "fp", 0, 0⟩)] }

/-- C3: `recognize_face` returns no match against an empty gallery (its
result does not depend on the matcher outcome at all), on a matcher
exception, on an unknown label, and on a distance at or above the
threshold 85; it returns the enrolled identity with confidence
`int(max(0, 100 - distance))` exactly when the predicted label is
enrolled and the distance is strictly below 85. -/
theorem recognize_threshold_and_empty_gallery :
    (∀ (st : SystemState) (p : Except Unit (Nat × ℚ)),
      st.label_map = [] → recognize_face st p = (none, "Unknown", 0)) ∧
    (∀ (st : SystemState) (e : Unit),
      recognize_face st (.error e) = (none, "Unknown", 0)) ∧
    (∀ (st : SystemState) (label : Nat) (conf : ℚ) (sid : String),
      st.lbph = true → alget st.label_map label = some sid → conf < 85 →
      recognize_face st (.ok (label, conf)) =
        (some sid,
          ((alget st.students sid).map Student.name).getD "Unknown",
          Int.toNat ⌊max 0 (100 - conf)⌋)) ∧
    (∀ (st : SystemState) (label : Nat) (conf : ℚ),
      85 ≤ conf ∨ alget st.label_map label = none →
      recognize_face st (.ok (label, conf)) = (none, "Unknown", 0)) := by
  refine ⟨?_, ?_, ?_, ?_⟩
  · intro st p h
    unfold recognize_face
    rw [if_pos (Or.inr h)]
  · intro st e
    by_cases htop : st.lbph = false ∨ st.label_map = []
    · unfold recognize_face
      rw [if_pos htop]
    · unfold recognize_face
      rw [if_neg htop]
  · intro st label conf sid hl halget hconf
    have htop : ¬(st.lbph = false ∨ st.label_map = []) := by
      rintro (h | h)
      · rw [hl] at h; cases h
      · exact alget_ne_nil halget h
    unfold recognize_face
    rw [if_neg htop]
    show (match alget st.label_map label with
      | some sid => _
      | none => _) = _
    rw [halget]
    simp only [if_pos hconf]
  · intro st label conf h
    by_cases htop : st.lbph = false ∨ st.label_map = []
    · unfold recognize_face
      rw [if_pos htop]
    · unfold recognize_face
      rw [if_neg htop]
      rcases h with h | h
      · cases halget : alget st.label_map label with
        | none =>
          show (match alget st.label_map label with
            | some sid => _
            | none => _) = _
          rw [halget]
        | some sid =>
          show (match alget st.label_map label with
            | some sid => _
            | none => _) = _
          rw [halget]
          simp only [if_neg (not_lt.mpr h)]
      · show (match alget st.label_map label with
          | some sid => _
          | none => _) = _
        rw [h]

/-- Witness for C3: a distance of 60 against the enrolled label is
accepted with the computed confidence; a distance of 90 is rejected;
an empty gallery rejects regardless of the matcher outcome. -/
theorem recognize_threshold_and_empty_gallery_witness :
    recognize_face recogState (.ok (0, 60)) =
      (some "S1", "Alice", Int.toNat ⌊max 0 ((100 : ℚ) - 60)⌋) ∧
    recognize_face recogState (.ok (0, 90)) = (none, "Unknown", 0) ∧
    recognize_face initState (.ok (0, 10)) = (none, "Unknown", 0) := by
  refine ⟨?_, ?_, ?_⟩
  · have h := recognize_threshold_and_empty_gallery.2.2.1 recogState 0 60 "S1"
      (by decide) (by decide) (by decide)
    rw [h]
    rw [show ((alget recogState.students "S1").map Student.name).getD
        "Unknown" = "Alice" from by decide]
  · exact recognize_threshold_and_empty_gallery.2.2.2 recogState 0 90
      (Or.inl (by decide))
  · exact recognize_threshold_and_empty_gallery.1 initState _ rfl

/-! ## C6 -/

/-- C6: when fewer than 3 frames yield a valid detected face sample,
`enroll_student` fails and returns the state unchanged — no label-map
entry, no student record and no matcher train/update (the whole state
is returned as-is) — with the `Only N valid faces detected` message
when the LBPH backend is available. -/
theorem enroll_insufficient_samples_rejected :
    ∀ {Frame Rect : Type} (detect : Frame → List Rect)
      (preprocess : Frame → Rect → Nat) (hashS : String → String)
      (st : SystemState) (now : Nat) (sid name department : String)
      (frames : List Frame),
      (collectSamples detect preprocess frames).length < 3 →
      (enroll_student detect preprocess hashS st now sid name department
        frames).1 = st ∧
      (enroll_student detect preprocess hashS st now sid name department
        frames).2.1 = false ∧
      (st.lbph = true →
        (enroll_student detect preprocess hashS st now sid name department
          frames).2.2 =
          "Only " ++ toString (collectSamples detect preprocess frames).length
            ++ " valid faces detected") := by
  intro Frame Rect detect preprocess hashS st now sid nm dept frames h
  by_cases hl : st.lbph = false
  · unfold enroll_student
    rw [if_pos hl]
    exact ⟨rfl, rfl, fun ht => absurd ht (by simp [hl])⟩
  · have hl' : st.lbph = true := by simpa using hl
    unfold enroll_student
    rw [if_neg hl]
    simp only [if_pos h]
    simp

/-- Witness for C6: two frames with no detectable face fail enrollment
with zero valid samples and leave the fresh system untouched. -/
theorem enroll_insufficient_samples_rejected_witness :
    (enroll_student (fun _ : Unit => ([] : List Unit)) (fun _ _ => 0)
      (fun s => s) initState 0 "S1" "Alice" "CS" [(), ()]).1 = initState ∧
    (enroll_student (fun _ : Unit => ([] : List Unit)) (fun _ _ => 0)
      (fun s => s) initState 0 "S1" "Alice" "CS" [(), ()]).2.1 = false ∧
    (enroll_student (fun _ : Unit => ([] : List Unit)) (fun _ _ => 0)
      (fun s => s) initState 0 "S1" "Alice" "CS" [(), ()]).2.2 =
      "Only 0 valid faces detected" := by
  have h := enroll_insufficient_samples_rejected
    (fun _ : Unit => ([] : List Unit)) (fun _ _ => 0) (fun s => s)
    initState 0 "S1" "Alice" "CS" [(), ()] (by decide)
  exact ⟨h.1, h.2.1, (h.2.2 rfl).trans (by decide)⟩

/-! ## C9 -/

/-- Detector backend for the duplicate-enrollment scenario: every frame
contains one face. -/
def dupDetect : Unit → List Unit := fun _ => [()]

/-- Preprocessing backend for the scenario: every face becomes sample 7. -/
def dupPre : Unit → Unit → Nat := fun _ _ => 7

/-- Hash backend for the scenario. -/
def dupHash : String → String := fun s => s

/-- A fresh system after one successful enrollment of `S1` with three
valid frames. -/
def enrolledOnceState : SystemState :=
  (enroll_student dupDetect dupPre dupHash initState 0 "S1" "Alice" "CS"
    [(), (), ()]).1

/-- C9 divergence: with `S1` already enrolled, `attendify_pro.py`'s
`enroll_student` (which lacks the duplicate-identity check) succeeds
again, allocating a second label for the same identity and updating
the matcher, whereas the `attendify_pro_v2.py` / `attendify_final.py`
version fails with the duplicate message and changes nothing — the
behaviour the spec's `DuplicateIdentity` contract requires. -/
theorem enroll_duplicate_identity_divergence :
    (alget enrolledOnceState.students "S1").isSome = true ∧
    (enroll_student dupDetect dupPre dupHash enrolledOnceState 1 "S1"
      "Alice" "CS" [(), (), ()]).2.1 = true ∧
    (enroll_student dupDetect dupPre dupHash enrolledOnceState 1 "S1"
      "Alice" "CS" [(), (), ()]).1.label_map = [(0, "S1"), (1, "S1")] ∧
    (enroll_student dupDetect dupPre dupHash enrolledOnceState 1 "S1"
      "Alice" "CS" [(), (), ()]).1.matcher_ops =
      enrolledOnceState.matcher_ops ++
        [MatcherOp.update [7, 7, 7] [1, 1, 1]] ∧
    (enroll_student_v2 dupDetect dupPre dupHash enrolledOnceState 1 "S1"
      "Alice" "CS" [(), (), ()]).2 = (false, "Student ID already exists") ∧
    (enroll_student_v2 dupDetect dupPre dupHash enrolledOnceState 1 "S1"
      "Alice" "CS" [(), (), ()]).1 = enrolledOnceState := by
  decide

/-! ## C4 -/

/-- Invariant of the `attendify_pro_v2.py` / `attendify_final.py`
liveness counters: no blink counted, no cooldown pending, at most the
single transition frame of a closure episode accumulated, and in that
case the last frame had fewer than 2 eyes. -/
def LivenessStuck (st : LivenessState) : Prop :=
  st.blink_count = 0 ∧ st.blink_cooldown = 0 ∧ st.no_eye_frames ≤ 1 ∧
    (st.no_eye_frames = 1 → st.last_eye_count < 2)

instance (st : LivenessState) : Decidable (LivenessStuck st) := by
  unfold LivenessStuck; infer_instance

lemma detect_blink_preserves_stuck (st : LivenessState) (obs : Option Nat)
    (h : LivenessStuck st) : LivenessStuck (detect_blink st obs).1 := by
  obtain ⟨hb, hc, hn, hl⟩ := h
  cases obs with
  | none => exact ⟨hb, hc, hn, hl⟩
  | some n =>
    have hc1 : ¬ 0 < st.blink_cooldown := by omega
    have hc3 : ¬ (2 ≤ n ∧ 2 ≤ st.no_eye_frames) := by omega
    by_cases hc2 : n < 2 ∧ 2 ≤ st.last_eye_count
    · have h0 : st.no_eye_frames = 0 := by
        rcases Nat.le_one_iff_eq_zero_or_eq_one.mp hn with h0 | h1
        · exact h0
        · exact absurd (hl h1) (by omega)
      simp only [detect_blink, if_neg hc1, if_pos hc2]
      exact ⟨hb, hc, show st.no_eye_frames + 1 ≤ 1 by omega,
        fun _ => show n < 2 from hc2.1⟩
    · by_cases hc4 : 2 ≤ n
      · simp only [detect_blink, if_neg hc1, if_neg hc2, if_neg hc3,
          if_pos hc4]
        exact ⟨hb, hc, show (0 : Nat) ≤ 1 by omega,
          fun hx => absurd (show (0 : Nat) = 1 from hx) (by omega)⟩
      · simp only [detect_blink, if_neg hc1, if_neg hc2, if_neg hc3,
          if_neg hc4]
        exact ⟨hb, hc, hn, fun _ => show n < 2 by omega⟩

lemma runLiveness_stuck (obss : List (Option Nat)) (st : LivenessState)
    (h : LivenessStuck st) : LivenessStuck (runLiveness st obss) := by
  induction obss generalizing st with
  | nil => exact h
  | cons o rest ih => exact ih _ (detect_blink_preserves_stuck st o h)

/-- C4: on the real code the blink counter can never increment at all:
from the initial counters, `no_eye_frames` only increments on the very
first closed-eye frame of an episode (because `last_eye_count` drops
below 2 immediately after), so the `no_eye_frames >= 2` reopening
condition is unreachable and `blink_count` stays 0 on every input
sequence — including the canonical blink `[2, 0, 0, 2]` the spec's
debounce rule says must count.  The `is_verified = blink_count >= 2`
reporting does hold. -/
theorem liveness_blink_count_never_increments :
    (∀ obss : List (Option Nat),
      (runLiveness LivenessState.start obss).blink_count = 0) ∧
    (runLiveness LivenessState.start
      [some 2, some 0, some 0, some 2]).blink_count = 0 ∧
    (∀ (st : LivenessState) (obs : Option Nat),
      (detect_blink st obs).2.2 =
        decide (2 ≤ (detect_blink st obs).1.blink_count)) := by
  refine ⟨?_, ?_, ?_⟩
  · intro obss
    exact (runLiveness_stuck obss LivenessState.start (by decide)).1
  · decide
  · intro st obs
    cases obs <;> rfl

/-! ## C7 -/

lemma splitOnChar_ne_nil (c : Char) (s : Str) : splitOnChar c s ≠ [] := by
  cases s with
  | nil => simp [splitOnChar]
  | cons x xs =>
    unfold splitOnChar
    cases h : splitOnChar c xs with
    | nil => simp
    | cons y ys => by_cases hx : x = c <;> simp [hx]

lemma splitOnChar_no_sep (c : Char) (s : Str) (h : ¬ c ∈ s) :
    splitOnChar c s = [s] := by
  induction s with
  | nil => rfl
  | cons x xs ih =>
    have hx : ¬ x = c := fun he => h (he ▸ List.mem_cons_self x xs)
    have hxs : ¬ c ∈ xs := fun hm => h (List.mem_cons_of_mem x hm)
    unfold splitOnChar
    rw [ih hxs]
    simp [hx]

lemma splitOnChar_cons (c x : Char) (xs : Str) :
    splitOnChar c (x :: xs) =
      match splitOnChar c xs with
      | [] => [[x]]
      | y :: ys => if x = c then [] :: y :: ys else (x :: y) :: ys := rfl

lemma splitOnChar_append (c : Char) (a b : Str) (h : ¬ c ∈ a) :
    splitOnChar c (a ++ c :: b) = a :: splitOnChar c b := by
  induction a with
  | nil =>
    show splitOnChar c (c :: b) = [] :: splitOnChar c b
    rw [splitOnChar_cons]
    cases hb : splitOnChar c b with
    | nil => exact absurd hb (splitOnChar_ne_nil c b)
    | cons y ys => simp
  | cons x xs ih =>
    have hx : ¬ x = c := fun he => h (he ▸ List.mem_cons_self x xs)
    have hxs : ¬ c ∈ xs := fun hm => h (List.mem_cons_of_mem x hm)
    show splitOnChar c (x :: (xs ++ c :: b)) = (x :: xs) :: splitOnChar c b
    rw [splitOnChar_cons, ih hxs]
    simp [hx]

lemma qrPayload_split (hashC : Str → Str) (sid today : Str)
    (hs : ¬ ':' ∈ sid) (ht : ¬ ':' ∈ qrToken hashC sid today) :
    splitOnChar ':' (qrPayload hashC sid today) =
      ["ATTENDIFY".toList, sid, qrToken hashC sid today] := by
  unfold qrPayload
  rw [List.append_assoc, List.cons_append,
    splitOnChar_append ':' "ATTENDIFY".toList _ (by decide),
    splitOnChar_append ':' sid _ hs, splitOnChar_no_sep ':' _ ht]

lemma verify_qr_eq_true_iff (hashC : Str → Str) (today payload sid : Str) :
    verify_qr hashC today payload sid = true ↔
      splitOnChar ':' payload =
        ["ATTENDIFY".toList, sid, qrToken hashC sid today] := by
  unfold verify_qr
  rcases hsp : splitOnChar ':' payload with
    _ | ⟨ns, _ | ⟨qsid, _ | ⟨qtok, _ | ⟨w, rest⟩⟩⟩⟩
  · simp
  · simp
  · simp
  · by_cases h1 : ns = "ATTENDIFY".toList
    · by_cases h2 : qsid = sid
      · simp [h1, h2, decide_eq_true_iff]
      · simp [h1, h2]
    · simp [h1]
  · simp

/-- C7 counterexample: for the identity `a:b` (whose id contains the
payload separator) the daily QR payload does not round-trip: it splits
into four fields, so `verify_qr` rejects it on the very day it was
generated.  The claim's unqualified "for every identity ... round-trip"
is therefore false as stated. -/
theorem qr_roundtrip_counterexample :
    verify_qr (fun s => s) "2025-01-01".toList
      (qrPayload (fun s => s) "a:b".toList "2025-01-01".toList)
      "a:b".toList = false := by
  decide

/-- C7 (amended): for every hash backend and every identity whose id
(and token — SHA-256 hexdigests never contain `:`) is free of the `:`
separator, the daily QR payload verifies on the same day; a payload
verifies only if it splits into exactly
`[ATTENDIFY, identity, today's token]`, so any namespace, identity or
token mismatch is rejected; and a token generated for a different day
fails to verify whenever the two days' tokens differ (which SHA-256
collision-freeness gives in practice). -/
theorem qr_daily_token_verification :
    (∀ (hashC : Str → Str) (sid today : Str),
      ¬ ':' ∈ sid → ¬ ':' ∈ qrToken hashC sid today →
      verify_qr hashC today (qrPayload hashC sid today) sid = true) ∧
    (∀ (hashC : Str → Str) (today payload sid : Str),
      verify_qr hashC today payload sid = true →
      splitOnChar ':' payload =
        ["ATTENDIFY".toList, sid, qrToken hashC sid today]) ∧
    (∀ (hashC : Str → Str) (sid day1 day2 : Str),
      ¬ ':' ∈ sid → ¬ ':' ∈ qrToken hashC sid day1 →
      qrToken hashC sid day1 ≠ qrToken hashC sid day2 →
      verify_qr hashC day2 (qrPayload hashC sid day1) sid = false) := by
  refine ⟨?_, ?_, ?_⟩
  · intro hashC sid today hs ht
    rw [verify_qr_eq_true_iff]
    exact qrPayload_split hashC sid today hs ht
  · intro hashC today payload sid h
    exact (verify_qr_eq_true_iff hashC today payload sid).mp h
  · intro hashC sid day1 day2 hs ht hne
    cases hv : verify_qr hashC day2 (qrPayload hashC sid day1) sid
    · rfl
    · exfalso
      have h2 := (verify_qr_eq_true_iff hashC day2
        (qrPayload hashC sid day1) sid).mp hv
      rw [qrPayload_split hashC sid day1 hs ht] at h2
      simp at h2
      exact hne h2

/-- Witness for C7: the round-trip succeeds for identity `S1` on
`2025-01-01`, and the token generated on `2025-01-01` fails to verify
on `2025-01-02`. -/
theorem qr_daily_token_verification_witness :
    verify_qr (fun s => s) "2025-01-01".toList
      (qrPayload (fun s => s) "S1".toList "2025-01-01".toList)
      "S1".toList = true ∧
    verify_qr (fun s => s) "2025-01-02".toList
      (qrPayload (fun s => s) "S1".toList "2025-01-01".toList)
      "S1".toList = false := by
  constructor
  · exact qr_daily_token_verification.1 (fun s => s) "S1".toList
      "2025-01-01".toList (by decide) (by decide)
  · exact qr_daily_token_verification.2.2 (fun s => s) "S1".toList
      "2025-01-01".toList "2025-01-02".toList (by decide) (by decide)
      (by decide)

end SmartCampus
